import Mathlib

/-!
Verification of the adaptive build-job throttler and build-target gating in
`setup.py` of the `aiter` package.

The throttler lives in `NinjaBuildExtension.__init__` (setup.py lines 199-216):

```
max_num_jobs_cores = max(1, os.cpu_count()*0.8)
if int(os.environ.get("MAX_JOBS", '1')) < max_num_jobs_cores:
    free_memory_gb = psutil.virtual_memory().available / (1024 ** 3)
    max_num_jobs_memory = int(free_memory_gb / 9)
    max_jobs = int(max(1, min(max_num_jobs_cores, max_num_jobs_memory)))
    os.environ["MAX_JOBS"] = str(max_jobs)
```

Numeric modelling notes.  The Python code computes with IEEE doubles; the
embedding uses exact rationals.  The literal `0.8` denotes the double
4/5 + 2⁻⁵²/5.  For an integer `c`, the rounded product `c * 0.8` is exactly
`4*c/5` when `5 ∣ c` (the error term is below half an ulp), and otherwise lies
strictly between the same two consecutive integers as `4*c/5`; hence every
comparison with an integer and every floor taken in the source agrees with the
exact-rational model using the fraction 4/5.  Likewise
`int(bytes / 2**30 / 9)` agrees with the integer division
`bytes / (9 * 2^30)` for every memory size below 2⁵³ bytes (8 PiB), the range
in which a byte count is exactly representable as a double and the rounding
error of the two divisions cannot cross an integer boundary.
-/

/-- CPU-derived cap actually used by the source (setup.py line 202):
`max(1, os.cpu_count()*0.8)`, generalised over the utilisation fraction.
Note that the source does NOT floor the product before comparing. -/
def cpuCap (availableCpuCount : ℕ) (cpuUtilizationFraction : ℚ) : ℚ :=
  max 1 ((availableCpuCount : ℚ) * cpuUtilizationFraction)

/-- Memory-derived job cap (setup.py lines 206-209):
`int(free_memory_gb / 9)`, generalised so the per-job cost is a byte count;
with `perJobMemoryCostBytes = 9 * 2^30` this is exactly the source's
`int(available / 2**30 / 9)` (see the numeric modelling notes). -/
def memJobs (availableMemoryBytes perJobMemoryCostBytes : ℕ) : ℕ :=
  availableMemoryBytes / perJobMemoryCostBytes

/-- The value stored when throttling is active (setup.py lines 212-213):
`int(max(1, min(max_num_jobs_cores, max_num_jobs_memory)))`.  Python's `int`
truncates toward zero; the operand is ≥ 1, so it is a floor. -/
def throttleValue (cap : ℚ) (m : ℕ) : ℕ :=
  (Int.floor (max 1 (min cap (m : ℚ)))).toNat

/-- The job limit computed by the throttler (setup.py lines 202-214),
parameterised over the two policy constants as in the spec's contract
`computeJobLimit(requestedJobs, snapshot, perJobMemoryCostBytes,
cpuUtilizationFraction)`.  The source instantiates
`cpuUtilizationFraction = 0.8` and `perJobMemoryCostBytes = 9 GiB`. -/
def computeJobLimit (requestedJobs availableCpuCount availableMemoryBytes
    perJobMemoryCostBytes : ℕ) (cpuUtilizationFraction : ℚ) : ℕ :=
  if (requestedJobs : ℚ) < cpuCap availableCpuCount cpuUtilizationFraction then
    throttleValue (cpuCap availableCpuCount cpuUtilizationFraction)
      (memJobs availableMemoryBytes perJobMemoryCostBytes)
  else requestedJobs

/-- The spec's CPU ceiling: `cpuCeiling = max(1, floor(availableCpuCount *
cpuUtilizationFraction))`.  Stated from the spec's formula in order to express
the claims; the source itself works with the un-floored `cpuCap`. -/
def cpuCeiling (availableCpuCount : ℕ) (cpuUtilizationFraction : ℚ) : ℕ :=
  (max 1 (Int.floor ((availableCpuCount : ℚ) * cpuUtilizationFraction))).toNat

/-- The source's utilisation policy constant, the literal `0.8` of
setup.py line 202 (see the numeric modelling notes on why the exact
rational 4/5 is faithful). -/
def cpuFractionConst : ℚ := 4 / 5

/-- One GiB, `1024 ** 3` of setup.py line 207. -/
def gib : ℕ := 1024 ^ 3

/-- The source's per-job peak memory cost, 9 GiB (setup.py lines 208-209). -/
def perJobCostBytes : ℕ := 9 * gib

/-- The ambient environment seen by `NinjaBuildExtension.__init__`: the
`MAX_JOBS` entry it reads and writes (parsed as a number; `none` means the
variable is unset, so the default `'1'` is used), and every other entry. -/
structure BuildEnv where
  maxJobs : Option ℕ
  others : String → Option String

/-- The effect of `NinjaBuildExtension.__init__` (setup.py lines 199-216) on
the ambient environment, given the host snapshot (`os.cpu_count()`,
`psutil.virtual_memory().available`): when the requested job count (default 1)
is below the CPU cap, the computed limit is written back to `MAX_JOBS`;
otherwise the environment is left untouched. -/
def ninjaInitEnv (cpuCount availableMemoryBytes : ℕ) (e : BuildEnv) : BuildEnv :=
  if ((e.maxJobs.getD 1 : ℕ) : ℚ) < cpuCap cpuCount cpuFractionConst then
    { e with
      maxJobs := some (throttleValue (cpuCap cpuCount cpuFractionConst)
        (memJobs availableMemoryBytes perJobCostBytes)) }
  else e

/-- Resolution of `IS_ROCM` from `BUILD_TARGET` and the torch installation
(setup.py lines 29-38).  A target other than `auto`/`cuda`/`rocm` leaves
`IS_ROCM` unassigned, which the module body then trips over (`none`). -/
def resolveIsRocm (buildTarget : String) (isHipExtension : Bool) : Option Bool :=
  if buildTarget = "auto" then some isHipExtension
  else if buildTarget = "cuda" then some false
  else if buildTarget = "rocm" then some true
  else none

/-- Outcome of the module-level configuration: the extension modules collected
in `ext_modules`, and the error raised, if any. -/
structure SetupOutcome where
  extModules : List String
  raisedError : Option String

/-- The module-level configuration flow of setup.py lines 61-186:
`ext_modules` starts empty; on ROCm the two gradlib GEMM extensions are
appended (lines 144-183); otherwise `NotImplementedError("Only ROCM is
supported")` is raised (line 186) with `ext_modules` still empty. -/
def runSetupConfig (buildTarget : String) (isHipExtension : Bool) : SetupOutcome :=
  match resolveIsRocm buildTarget isHipExtension with
  | some true => ⟨["rocsolidxgemm_", "hipbsolidxgemm_"], none⟩
  | some false => ⟨[], some "Only ROCM is supported"⟩
  | none => ⟨[], some "NameError: IS_ROCM is not defined"⟩

/-! ### Helper lemmas -/

lemma one_le_cpuCap (c : ℕ) (f : ℚ) : 1 ≤ cpuCap c f :=
  le_max_left _ _

lemma one_le_throttleValue (cap : ℚ) (m : ℕ) : 1 ≤ throttleValue cap m := by
  unfold throttleValue
  have h : (1 : ℤ) ≤ Int.floor (max 1 (min cap (m : ℚ))) :=
    Int.le_floor.mpr (by exact_mod_cast le_max_left (1 : ℚ) (min cap (m : ℚ)))
  omega

lemma throttleValue_mono (cap : ℚ) {m₁ m₂ : ℕ} (h : m₁ ≤ m₂) :
    throttleValue cap m₁ ≤ throttleValue cap m₂ := by
  unfold throttleValue
  have hf : Int.floor (max 1 (min cap (m₁ : ℚ)))
      ≤ Int.floor (max 1 (min cap (m₂ : ℚ))) :=
    Int.floor_mono (max_le_max le_rfl (min_le_min le_rfl (by exact_mod_cast h)))
  omega

lemma throttleValue_zero (cap : ℚ) (h : 0 ≤ cap) : throttleValue cap 0 = 1 := by
  unfold throttleValue
  rw [Nat.cast_zero, min_eq_right h, max_eq_left zero_le_one]
  simp

lemma throttleValue_eq_self (cap : ℚ) (m : ℕ) (h1 : 1 ≤ m) (h2 : (m : ℚ) ≤ cap) :
    throttleValue cap m = m := by
  unfold throttleValue
  rw [min_eq_right h2, max_eq_right (by exact_mod_cast h1)]
  simp

lemma floor_cpuCap (c : ℕ) (f : ℚ) :
    Int.floor (cpuCap c f) = max 1 (Int.floor ((c : ℚ) * f)) := by
  unfold cpuCap
  rcases le_total 1 ((c : ℚ) * f) with h | h
  · rw [max_eq_right h,
      max_eq_right (Int.le_floor.mpr (by exact_mod_cast h))]
  · rw [max_eq_left h,
      max_eq_left (by simpa using Int.floor_mono h)]
    simp

lemma intCast_cpuCeiling (c : ℕ) (f : ℚ) :
    (cpuCeiling c f : ℤ) = Int.floor (cpuCap c f) := by
  unfold cpuCeiling
  rw [Int.toNat_of_nonneg (le_trans zero_le_one (le_max_left _ _)),
    floor_cpuCap]

lemma cast_lt_cpuCap_of_lt_cpuCeiling {r c : ℕ} {f : ℚ}
    (h : r < cpuCeiling c f) : (r : ℚ) < cpuCap c f := by
  have h1 : (r : ℤ) + 1 ≤ (cpuCeiling c f : ℤ) := by exact_mod_cast h
  rw [intCast_cpuCeiling] at h1
  have h2 : ((r : ℤ) + 1 : ℚ) ≤ cpuCap c f := by
    exact_mod_cast Int.le_floor.mp h1
  calc (r : ℚ) < (r : ℚ) + 1 := lt_add_one _
    _ ≤ cpuCap c f := by exact_mod_cast h2

lemma throttleValue_le_cpuCeiling (c : ℕ) (f : ℚ) (m : ℕ) :
    throttleValue (cpuCap c f) m ≤ cpuCeiling c f := by
  unfold throttleValue
  have hcap : max 1 (min (cpuCap c f) (m : ℚ)) ≤ cpuCap c f := by
    have h1 : max 1 (min (cpuCap c f) (m : ℚ)) ≤ max 1 (cpuCap c f) :=
      max_le_max le_rfl (min_le_left _ _)
    rwa [max_eq_right (one_le_cpuCap c f)] at h1
  have h2 : Int.floor (max 1 (min (cpuCap c f) (m : ℚ)))
      ≤ (cpuCeiling c f : ℤ) := by
    rw [intCast_cpuCeiling]
    exact Int.floor_mono hcap
  omega

lemma cpuCap_sixteen : cpuCap 16 cpuFractionConst = max 1 (64 / 5 : ℚ) := by
  unfold cpuCap cpuFractionConst
  norm_num

lemma one_lt_cpuCap_sixteen : (1 : ℚ) < cpuCap 16 cpuFractionConst := by
  rw [cpuCap_sixteen]
  refine lt_max_iff.mpr (Or.inr ?_)
  norm_num

lemma memJobs_mono (k : ℕ) {m₁ m₂ : ℕ} (h : m₁ ≤ m₂) :
    memJobs m₁ k ≤ memJobs m₂ k :=
  Nat.div_le_div_right h

lemma cpuCeiling_sixteen : cpuCeiling 16 (4 / 5) = 12 := by
  unfold cpuCeiling
  have h : Int.floor (((16 : ℕ) : ℚ) * (4 / 5)) = 12 := by
    rw [Int.floor_eq_iff]
    constructor <;> norm_num
  rw [h, max_eq_right (by norm_num : (1 : ℤ) ≤ 12)]
  rfl

lemma memJobs_forty_nine : memJobs (40 * gib) (9 * gib) = 4 := by
  unfold memJobs gib
  norm_num

/-! ### Claims -/

/-- Claim C1: for every valid input (requestedJobs ≥ 1, availableCpuCount ≥ 1,
availableMemoryBytes ≥ 0, perJobMemoryCostBytes > 0, cpuUtilizationFraction in
(0,1]), the job limit computed by the throttler is at least 1. -/
theorem claim_C1_job_limit_ge_one (r c m k : ℕ) (f : ℚ)
    (hr : 1 ≤ r) (hc : 1 ≤ c) (hk : 0 < k) (hf0 : 0 < f) (hf1 : f ≤ 1) :
    1 ≤ computeJobLimit r c m k f := by
  unfold computeJobLimit
  split
  · exact one_le_throttleValue _ _
  · exact hr

theorem claim_C1_witness :
    1 ≤ computeJobLimit 1 16 (40 * gib) (9 * gib) (4 / 5) :=
  claim_C1_job_limit_ge_one 1 16 (40 * gib) (9 * gib) (4 / 5)
    (by norm_num) (by norm_num) (by norm_num [gib]) (by norm_num) (by norm_num)

/-- Claim C2, counterexample: at requestedJobs = 12, availableCpuCount = 16,
availableMemoryBytes = 0, perJobMemoryCostBytes = 9 GiB,
cpuUtilizationFraction = 4/5 — a valid input with
requestedJobs ≥ cpuCeiling = max(1, ⌊16 · 4/5⌋) = 12 — the memory check is
NOT skipped (the source compares against the un-floored 12.8) and the result
is 1, not 12. -/
theorem claim_C2_counterexample :
    1 ≤ 12 ∧ 1 ≤ 16 ∧ 0 < 9 * gib ∧ (0 : ℚ) < 4 / 5 ∧ (4 / 5 : ℚ) ≤ 1 ∧
    cpuCeiling 16 (4 / 5) ≤ 12 ∧
    computeJobLimit 12 16 0 (9 * gib) (4 / 5) = 1 := by
  refine ⟨by norm_num, by norm_num, by norm_num [gib], by norm_num, by norm_num,
    le_of_eq cpuCeiling_sixteen, ?_⟩
  have hcond : ((12 : ℕ) : ℚ) < cpuCap 16 (4 / 5) := by
    unfold cpuCap
    refine lt_max_iff.mpr (Or.inr ?_)
    norm_num
  unfold computeJobLimit memJobs
  rw [if_pos hcond, Nat.zero_div,
    throttleValue_zero _ (le_trans zero_le_one (one_le_cpuCap 16 (4 / 5)))]

/-- Claim C2, amended: for every valid input whose requestedJobs is at least
the UN-FLOORED cpu cap max(1, availableCpuCount · cpuUtilizationFraction)
actually used by the source, the memory check is skipped and the result
equals requestedJobs exactly. -/
theorem claim_C2_amended_passthrough (r c m k : ℕ) (f : ℚ)
    (hr : 1 ≤ r) (hc : 1 ≤ c) (hk : 0 < k) (hf0 : 0 < f) (hf1 : f ≤ 1)
    (hcap : cpuCap c f ≤ (r : ℚ)) :
    computeJobLimit r c m k f = r := by
  unfold computeJobLimit
  rw [if_neg (not_lt.mpr hcap)]

theorem claim_C2_amended_witness :
    computeJobLimit 20 16 0 (9 * gib) (4 / 5) = 20 :=
  claim_C2_amended_passthrough 20 16 0 (9 * gib) (4 / 5)
    (by norm_num) (by norm_num) (by norm_num [gib]) (by norm_num) (by norm_num)
    (by unfold cpuCap
        rw [max_le_iff]
        constructor <;> norm_num)

/-- Claim C3: for every valid input with requestedJobs < cpuCeiling and
availableMemoryBytes = 0, the computed result is exactly 1. -/
theorem claim_C3_zero_memory_gives_one (r c k : ℕ) (f : ℚ)
    (hr : 1 ≤ r) (hc : 1 ≤ c) (hk : 0 < k) (hf0 : 0 < f) (hf1 : f ≤ 1)
    (hlt : r < cpuCeiling c f) :
    computeJobLimit r c 0 k f = 1 := by
  unfold computeJobLimit memJobs
  rw [if_pos (cast_lt_cpuCap_of_lt_cpuCeiling hlt), Nat.zero_div,
    throttleValue_zero _ (le_trans zero_le_one (one_le_cpuCap c f))]

theorem claim_C3_witness :
    computeJobLimit 1 16 0 (9 * gib) (4 / 5) = 1 :=
  claim_C3_zero_memory_gives_one 1 16 (9 * gib) (4 / 5)
    (by norm_num) (by norm_num) (by norm_num [gib]) (by norm_num) (by norm_num)
    (by rw [cpuCeiling_sixteen]; norm_num)

/-- Claim C4: for every valid input with requestedJobs < cpuCeiling
(throttling active), the computed result never exceeds
cpuCeiling = max(1, ⌊availableCpuCount · cpuUtilizationFraction⌋). -/
theorem claim_C4_result_le_cpuCeiling (r c m k : ℕ) (f : ℚ)
    (hr : 1 ≤ r) (hc : 1 ≤ c) (hk : 0 < k) (hf0 : 0 < f) (hf1 : f ≤ 1)
    (hlt : r < cpuCeiling c f) :
    computeJobLimit r c m k f ≤ cpuCeiling c f := by
  unfold computeJobLimit
  rw [if_pos (cast_lt_cpuCap_of_lt_cpuCeiling hlt)]
  exact throttleValue_le_cpuCeiling c f _

theorem claim_C4_witness :
    computeJobLimit 2 16 (40 * gib) (9 * gib) (4 / 5) ≤ cpuCeiling 16 (4 / 5) :=
  claim_C4_result_le_cpuCeiling 2 16 (40 * gib) (9 * gib) (4 / 5)
    (by norm_num) (by norm_num) (by norm_num [gib]) (by norm_num) (by norm_num)
    (by rw [cpuCeiling_sixteen]; norm_num)

/-- Claim C5: holding requestedJobs, availableCpuCount, perJobMemoryCostBytes
and cpuUtilizationFraction fixed, a larger or equal availableMemoryBytes
never decreases the computed result. -/
theorem claim_C5_memory_monotone (r c m₁ m₂ k : ℕ) (f : ℚ)
    (hr : 1 ≤ r) (hc : 1 ≤ c) (hk : 0 < k) (hf0 : 0 < f) (hf1 : f ≤ 1)
    (hm : m₁ ≤ m₂) :
    computeJobLimit r c m₁ k f ≤ computeJobLimit r c m₂ k f := by
  unfold computeJobLimit
  by_cases h : (r : ℚ) < cpuCap c f
  · rw [if_pos h, if_pos h]
    exact throttleValue_mono _ (memJobs_mono k hm)
  · rw [if_neg h, if_neg h]

theorem claim_C5_witness :
    computeJobLimit 3 16 0 (9 * gib) (4 / 5)
      ≤ computeJobLimit 3 16 (40 * gib) (9 * gib) (4 / 5) :=
  claim_C5_memory_monotone 3 16 0 (40 * gib) (9 * gib) (4 / 5)
    (by norm_num) (by norm_num) (by norm_num [gib]) (by norm_num) (by norm_num)
    (Nat.zero_le _)

/-- Claim C6: at availableCpuCount = 16, cpuUtilizationFraction = 4/5,
requestedJobs = 1, availableMemoryBytes = 40 GiB,
perJobMemoryCostBytes = 9 GiB: throttling applies (cpuCeiling = 12, memory
ceiling = 4) and the computed result is exactly 4. -/
theorem claim_C6_worked_example :
    cpuCeiling 16 (4 / 5) = 12 ∧
    1 < cpuCeiling 16 (4 / 5) ∧
    memJobs (40 * gib) (9 * gib) = 4 ∧
    computeJobLimit 1 16 (40 * gib) (9 * gib) (4 / 5) = 4 := by
  have hcond : ((1 : ℕ) : ℚ) < cpuCap 16 (4 / 5) := by
    unfold cpuCap
    refine lt_max_iff.mpr (Or.inr ?_)
    norm_num
  have hval : computeJobLimit 1 16 (40 * gib) (9 * gib) (4 / 5) = 4 := by
    unfold computeJobLimit
    rw [if_pos hcond, memJobs_forty_nine,
      throttleValue_eq_self _ 4 (by norm_num) ?_]
    unfold cpuCap
    refine le_max_iff.mpr (Or.inr ?_)
    norm_num
  exact ⟨cpuCeiling_sixteen, by rw [cpuCeiling_sixteen]; norm_num,
    memJobs_forty_nine, hval⟩

/-- Claim C7, counterexample: the throttler does have a side effect.  Run on a
host with 16 CPUs and 40 GiB free, starting from an environment with
`MAX_JOBS` unset (so the default 1 is used), the environment after
`NinjaBuildExtension.__init__` differs from the one before: `MAX_JOBS` has
been written (setup.py line 214). -/
theorem claim_C7_counterexample :
    ninjaInitEnv 16 (40 * gib) ⟨none, fun _ => none⟩
      ≠ (⟨none, fun _ => none⟩ : BuildEnv) := by
  have hcond : (((⟨none, fun _ => none⟩ : BuildEnv).maxJobs.getD 1 : ℕ) : ℚ)
      < cpuCap 16 cpuFractionConst := by
    simpa using one_lt_cpuCap_sixteen
  intro h
  have h1 := congrArg BuildEnv.maxJobs h
  unfold ninjaInitEnv at h1
  rw [if_pos hcond] at h1
  simp at h1

/-- Claim C7, amended: the throttler's only side effect is writing the
computed job limit to the `MAX_JOBS` entry; every other entry of the ambient
environment is left unchanged, and `MAX_JOBS` itself is either untouched
(memory check skipped) or set to the computed throttle value. -/
theorem claim_C7_amended_frame (cpu mem : ℕ) (e : BuildEnv) :
    (ninjaInitEnv cpu mem e).others = e.others ∧
    ((ninjaInitEnv cpu mem e).maxJobs = e.maxJobs ∨
      (ninjaInitEnv cpu mem e).maxJobs =
        some (throttleValue (cpuCap cpu cpuFractionConst)
          (memJobs mem perJobCostBytes))) := by
  unfold ninjaInitEnv
  split
  · exact ⟨rfl, Or.inr rfl⟩
  · exact ⟨rfl, Or.inl rfl⟩

/-- Claim C8: the throttler is deterministic in its declared inputs — the CPU
count, the available-memory snapshot and the `MAX_JOBS` entry it reads;
two runs whose environments agree on `MAX_JOBS` (but may differ anywhere
else) produce the same `MAX_JOBS` outcome. -/
theorem claim_C8_deterministic (cpu mem : ℕ) (e₁ e₂ : BuildEnv)
    (h : e₁.maxJobs = e₂.maxJobs) :
    (ninjaInitEnv cpu mem e₁).maxJobs = (ninjaInitEnv cpu mem e₂).maxJobs := by
  unfold ninjaInitEnv
  rw [h]
  by_cases hc : ((e₂.maxJobs.getD 1 : ℕ) : ℚ) < cpuCap cpu cpuFractionConst
  · rw [if_pos hc, if_pos hc]
  · rw [if_neg hc, if_neg hc]
    exact h

theorem claim_C8_witness :
    (ninjaInitEnv 16 (40 * gib) ⟨some 2, fun _ => none⟩).maxJobs
      = (ninjaInitEnv 16 (40 * gib) ⟨some 2, fun k => some k⟩).maxJobs :=
  claim_C8_deterministic 16 (40 * gib) ⟨some 2, fun _ => none⟩
    ⟨some 2, fun k => some k⟩ rfl

/-- Claim C9: with a requested-parallelism override of 0 (`MAX_JOBS="0"`) the
throttling branch always activates and writes the computed value, and for
every non-negative integer override the final `MAX_JOBS` value after the
throttler runs is at least 1. -/
theorem claim_C9_override_zero_safe (cpu mem r : ℕ)
    (oth : String → Option String) :
    (ninjaInitEnv cpu mem ⟨some 0, oth⟩).maxJobs
      = some (throttleValue (cpuCap cpu cpuFractionConst)
          (memJobs mem perJobCostBytes)) ∧
    1 ≤ ((ninjaInitEnv cpu mem ⟨some r, oth⟩).maxJobs).getD 0 := by
  constructor
  · have hcond0 : (((⟨some 0, oth⟩ : BuildEnv).maxJobs.getD 1 : ℕ) : ℚ)
        < cpuCap cpu cpuFractionConst := by
      simpa using lt_of_lt_of_le zero_lt_one (one_le_cpuCap cpu cpuFractionConst)
    unfold ninjaInitEnv
    rw [if_pos hcond0]
  · unfold ninjaInitEnv
    split
    · simpa using one_le_throttleValue _ _
    · rename_i hcond
      have h1 : cpuCap cpu cpuFractionConst
          ≤ (((⟨some r, oth⟩ : BuildEnv).maxJobs.getD 1 : ℕ) : ℚ) :=
        not_lt.mp hcond
      simp only [Option.getD_some] at h1
      have h2 : 1 ≤ r := by
        exact_mod_cast le_trans (one_le_cpuCap cpu cpuFractionConst) h1
      simpa using h2

/-- Claim C10: when the build target does not resolve to ROCm (`BUILD_TARGET`
is `"cuda"`, or `"auto"` on a non-HIP torch installation), the script raises
`NotImplementedError("Only ROCM is supported")` and the list of extension
modules remains empty. -/
theorem claim_C10_non_rocm_raises (bt : String) (hip : Bool)
    (h : bt = "cuda" ∨ (bt = "auto" ∧ hip = false)) :
    runSetupConfig bt hip = ⟨[], some "Only ROCM is supported"⟩ := by
  rcases h with h | ⟨h, hh⟩
  · subst h
    rfl
  · subst h
    subst hh
    rfl

theorem claim_C10_witness :
    runSetupConfig "cuda" true = ⟨[], some "Only ROCM is supported"⟩ :=
  claim_C10_non_rocm_raises "cuda" true (Or.inl rfl)
